import Mathlib

/-!
Shallow embedding of the community-blogging backend: the relational state
(`DB`), the storage/access layer (`storage.ts`), and the HTTP route handlers
(`registerRoutes`).  Ids, counters and timestamps are modelled as `Nat`/`Int`;
JSON membership arrays (`likedBy`, `bookmarkedBy`, `viewedBy`) as `List Nat`;
tables as lists of rows.  JavaScript `Array.prototype.indexOf` (with its `-1`
sentinel) and `splice(i, 1)` are embedded explicitly, since the toggle
handlers depend on their exact first-occurrence semantics.
-/

namespace Social

/-- A waitlist row (`waitlist` table): full name and email.  The generated
`id`/`createdAt` columns play no role in any claim and are omitted. -/
structure WaitlistEntry where
  fullName : String
  email : String
deriving Repr, DecidableEq

/-- A user row (`users` table), restricted to the columns the handlers read. -/
structure User where
  id : Nat
  email : String
  password : String
  fullName : String
  phone : Option String
deriving Repr, DecidableEq

/-- An article row (`articles` table).  `likedBy`, `bookmarkedBy`, `viewedBy`
are the jsonb membership arrays; `views` and `likes` the denormalized
counters (SQL `integer`, hence `Int`). -/
structure Article where
  id : Nat
  title : String
  content : String
  authorId : Nat
  status : String
  views : Int
  likes : Int
  likedBy : List Nat
  bookmarkedBy : List Nat
  viewedBy : List Nat
  tags : List String
deriving Repr, DecidableEq

/-- A comment row (`comments` table).  `createdAt` is the creation timestamp
used by the `ORDER BY created_at DESC` queries. -/
structure Comment where
  id : Nat
  content : String
  articleId : Nat
  userId : Nat
  parentId : Option Nat
  likes : Int
  createdAt : Nat
deriving Repr, DecidableEq

/-- The relational store: one list of rows per table used by the claims.
`follows`, `bookmarks` and `readingHistory` rows are (first id, second id)
pairs: (followerId, followingId), (userId, articleId), (userId, articleId). -/
structure DB where
  waitlist : List WaitlistEntry
  users : List User
  articles : List Article
  comments : List Comment
  follows : List (Nat × Nat)
  bookmarks : List (Nat × Nat)
  readingHistory : List (Nat × Nat)
deriving Repr, DecidableEq

/-- An HTTP response: only the status code and the `message` field of the
JSON body are modelled (data payloads are recovered by the read queries). -/
structure Resp where
  status : Nat
  message : String
deriving Repr, DecidableEq

/-! ### JavaScript array primitives used by the toggle handlers -/

/-- JavaScript `Array.prototype.indexOf`: index of the first occurrence,
`-1` when absent. -/
def jsIndexOf (l : List Nat) (u : Nat) : Int :=
  match l with
  | [] => -1
  | x :: xs =>
    if x = u then 0
    else
      let r := jsIndexOf xs u
      if r = -1 then -1 else r + 1

/-- JavaScript `arr.splice(i, 1)`: remove the element at index `i`. -/
def jsSpliceOut (l : List Nat) (i : Int) : List Nat :=
  l.eraseIdx i.toNat

/-! ### Storage layer (`storage.ts`) -/

/-- `addToWaitlist`: plain insert; the `waitlist_email_unique` constraint of
the schema makes the database reject a duplicate email, modelled as `none`. -/
def addToWaitlist (db : DB) (entry : WaitlistEntry) : Option DB :=
  if db.waitlist.any (fun w => w.email == entry.email) then none
  else some { db with waitlist := db.waitlist ++ [entry] }

/-- `getWaitlistCount`: `count(*)` over the waitlist table. -/
def getWaitlistCount (db : DB) : Nat :=
  db.waitlist.length

/-- `createUser`: insert a user row. -/
def createUser (db : DB) (u : User) : DB :=
  { db with users := db.users ++ [u] }

/-- `getUserByEmail`: first user row with the given email. -/
def getUserByEmail (db : DB) (email : String) : Option User :=
  db.users.find? (fun u => u.email == email)

/-- `createArticle`: insert an article row. -/
def createArticle (db : DB) (a : Article) : DB :=
  { db with articles := db.articles ++ [a] }

/-- `getArticleById`: first article row with the given id. -/
def getArticleById (db : DB) (articleId : Nat) : Option Article :=
  db.articles.find? (fun a => a.id == articleId)

/-- `updateArticle`: SQL `UPDATE articles SET ... WHERE id = articleId`;
`f` is the field assignment of the `set` clause. -/
def updateArticle (db : DB) (articleId : Nat) (f : Article → Article) : DB :=
  { db with articles := db.articles.map (fun a => if a.id == articleId then f a else a) }

/-- `incrementArticleViews`: `SET views = views + 1 WHERE id = articleId`. -/
def incrementArticleViews (db : DB) (articleId : Nat) : DB :=
  { db with articles :=
      db.articles.map (fun a => if a.id == articleId then { a with views := a.views + 1 } else a) }

/-- `followUser`: insert a follow row (no uniqueness constraint). -/
def followUser (db : DB) (followerId followingId : Nat) : DB :=
  { db with follows := db.follows ++ [(followerId, followingId)] }

/-- `unfollowUser`: `DELETE FROM follows WHERE follower_id = _ AND following_id = _`
(removes every matching row). -/
def unfollowUser (db : DB) (followerId followingId : Nat) : DB :=
  { db with follows := db.follows.filter (fun r => !(r.1 == followerId && r.2 == followingId)) }

/-- `isFollowing`: whether some follow row matches the pair. -/
def isFollowing (db : DB) (followerId followingId : Nat) : Bool :=
  db.follows.any (fun r => r.1 == followerId && r.2 == followingId)

/-- `createComment`: insert a comment row. -/
def createComment (db : DB) (c : Comment) : DB :=
  { db with comments := db.comments ++ [c] }

/-- The `ORDER BY created_at DESC` ordering on comments. -/
def newestFirst (x y : Comment) : Prop :=
  y.createdAt ≤ x.createdAt

instance : DecidableRel newestFirst := fun x y => Nat.decLe y.createdAt x.createdAt

instance : IsTotal Comment newestFirst :=
  ⟨fun a b => Nat.le_total b.createdAt a.createdAt⟩

instance : IsTrans Comment newestFirst :=
  ⟨fun _ _ _ h1 h2 => Nat.le_trans h2 h1⟩

/-- `getArticleComments`: top-level comments (`parent_id IS NULL`) of an
article, ordered newest-created-first. -/
def getArticleComments (db : DB) (articleId : Nat) : List Comment :=
  List.insertionSort newestFirst
    (db.comments.filter (fun c => c.articleId == articleId && c.parentId.isNone))

/-- `getReplies`: comments whose `parent_id` is the given comment, ordered
newest-created-first. -/
def getReplies (db : DB) (commentId : Nat) : List Comment :=
  List.insertionSort newestFirst
    (db.comments.filter (fun c => c.parentId == some commentId))

/-- First comment row with the given id (the lookup inside
`getCommentWithReplies`). -/
def getCommentById (db : DB) (commentId : Nat) : Option Comment :=
  db.comments.find? (fun c => c.id == commentId)

/-- `getCommentWithReplies`: the comment plus its replies (`none` models the
thrown "Comment not found"). -/
def getCommentWithReplies (db : DB) (commentId : Nat) : Option (Comment × List Comment) :=
  (getCommentById db commentId).map (fun c => (c, getReplies db commentId))

/-- `likeComment`: `SET likes = likes + 1 WHERE id = commentId`. -/
def likeComment (db : DB) (commentId : Nat) : DB :=
  { db with comments :=
      db.comments.map (fun c => if c.id == commentId then { c with likes := c.likes + 1 } else c) }

/-- `addBookmark`: insert a bookmark row. -/
def addBookmark (db : DB) (userId articleId : Nat) : DB :=
  { db with bookmarks := db.bookmarks ++ [(userId, articleId)] }

/-- `removeBookmark`: delete every bookmark row of the (user, article) pair. -/
def removeBookmark (db : DB) (userId articleId : Nat) : DB :=
  { db with bookmarks := db.bookmarks.filter (fun r => !(r.1 == userId && r.2 == articleId)) }

/-- `getUserBookmarks`: articles joined through the user's bookmark rows. -/
def getUserBookmarks (db : DB) (userId : Nat) : List Article :=
  (db.bookmarks.filter (fun r => r.1 == userId)).filterMap (fun r => getArticleById db r.2)

/-- `addToReadingHistory`: append a reading-history row. -/
def addToReadingHistory (db : DB) (userId articleId : Nat) : DB :=
  { db with readingHistory := db.readingHistory ++ [(userId, articleId)] }

/-- `getUserReadingHistory`: articles joined through the user's history rows
(the `read_at DESC` ordering is irrelevant to every claim and not modelled). -/
def getUserReadingHistory (db : DB) (userId : Nat) : List Article :=
  (db.readingHistory.filter (fun r => r.1 == userId)).filterMap (fun r => getArticleById db r.2)

/-! ### Request validation (`@shared/schema` zod schemas) -/

/-- Modelled from the spec: the zod `.email()` format validator is library
code not present in the repository; only a syntactic plausibility check
(presence of an `@`) stands in for it.  No claim hinges on its exact
boundary: it is only ever applied to plainly well-formed or irrelevant
addresses. -/
def emailFormatOk (email : String) : Bool :=
  email.data.contains '@'

/-- A registration request body for `POST /api/auth/register`. -/
structure RegisterRequest where
  email : String
  password : String
  fullName : String
  phone : Option String
deriving Repr, DecidableEq

/-- `insertUserSchema.parse`: email format, password at least 8 characters,
full name at least 2 characters; the error carries the first failing
field's message (`error.errors[0].message`). -/
def parseUser (req : RegisterRequest) : Except String RegisterRequest :=
  if !(emailFormatOk req.email) then .error "Please enter a valid email address"
  else if req.password.length < 8 then .error "Password must be at least 8 characters"
  else if req.fullName.length < 2 then .error "Full name must be at least 2 characters"
  else .ok req

/-- `insertWaitlistSchema.parse`: email format and full name at least
2 characters. -/
def parseWaitlist (req : WaitlistEntry) : Except String WaitlistEntry :=
  if !(emailFormatOk req.email) then .error "Please enter a valid email address"
  else if req.fullName.length < 2 then .error "Full name must be at least 2 characters"
  else .ok req

/-! ### HTTP route handlers (`registerRoutes`)

Each handler takes the store, the session identity (`none` = no
authenticated user on the request) and the route parameters / body, and
returns the response together with the store it leaves behind.  Database
generated values (serial ids, `now()`) are passed in as explicit
arguments. -/

/-- The 401 response every authenticated route produces without a session. -/
def notAuthenticated : Resp :=
  { status := 401, message := "Not authenticated" }

/-- `POST /api/auth/register`.  `hash` stands for `bcrypt.hash`, `newId` for
the serial id of a created row. -/
def registerHandler (hash : String → String) (newId : Nat) (db : DB)
    (req : RegisterRequest) : Resp × DB :=
  match parseUser req with
  | .error msg => ({ status := 400, message := msg }, db)
  | .ok data =>
    match getUserByEmail db data.email with
    | some _ => ({ status := 400, message := "Email already registered" }, db)
    | none =>
      let user : User :=
        { id := newId, email := data.email, password := hash data.password,
          fullName := data.fullName, phone := data.phone }
      ({ status := 200, message := "" }, createUser db user)

/-- `POST /api/waitlist`: validate, insert; a unique-constraint violation is
caught as a non-Zod error and returns 500 with the store unchanged. -/
def waitlistHandler (db : DB) (req : WaitlistEntry) : Resp × DB :=
  match parseWaitlist req with
  | .error msg => ({ status := 400, message := msg }, db)
  | .ok data =>
    match addToWaitlist db data with
    | none => ({ status := 500, message := "Internal server error" }, db)
    | some db2 => ({ status := 200, message := "" }, db2)

/-- An article creation body for `POST /api/articles` (`none` = missing or
non-string field). -/
structure ArticleRequest where
  title : Option String
  content : Option String
  tags : List String
deriving Repr, DecidableEq

/-- `POST /api/articles`: auth check, then title/content validation (the
JavaScript `!title` test also rejects the empty string), then insert with
zeroed counters and empty membership arrays. -/
def createArticleHandler (newId : Nat) (db : DB) (user : Option Nat)
    (req : ArticleRequest) : Resp × DB :=
  match user with
  | none => (notAuthenticated, db)
  | some authorId =>
    match req.title with
    | none => ({ status := 400, message := "Title is required and must be a string" }, db)
    | some title =>
      if title = "" then
        ({ status := 400, message := "Title is required and must be a string" }, db)
      else
        match req.content with
        | none => ({ status := 400, message := "Content is required and must be a string" }, db)
        | some content =>
          if content = "" then
            ({ status := 400, message := "Content is required and must be a string" }, db)
          else
            let article : Article :=
              { id := newId, title := title, content := content, authorId := authorId,
                status := "published", views := 0, likes := 0, likedBy := [],
                bookmarkedBy := [], viewedBy := [], tags := req.tags }
            ({ status := 200, message := "" }, createArticle db article)

/-- `POST /api/articles/:id/like`: fetch the article, look the user up in
`likedBy` with `indexOf`; `-1` means absent (append, increment), otherwise
`splice` the found index out and decrement floored at zero. -/
def likeArticleHandler (db : DB) (user : Option Nat) (articleId : Nat) : Resp × DB :=
  match user with
  | none => (notAuthenticated, db)
  | some userId =>
    match getArticleById db articleId with
    | none => ({ status := 404, message := "Article not found" }, db)
    | some article =>
      let likedBy := article.likedBy
      let userIndex := jsIndexOf likedBy userId
      if userIndex = -1 then
        let newLikedBy := likedBy ++ [userId]
        let db2 := updateArticle db articleId
          (fun a => { a with likedBy := newLikedBy, likes := article.likes + 1 })
        ({ status := 200, message := "Article liked successfully" }, db2)
      else
        let newLikedBy := jsSpliceOut likedBy userIndex
        let db2 := updateArticle db articleId
          (fun a => { a with likedBy := newLikedBy, likes := max 0 (article.likes - 1) })
        ({ status := 200, message := "Article unliked successfully" }, db2)

/-- `POST /api/articles/:id/bookmark`: same toggle shape as the like route
against `bookmarkedBy`, mirrored into the `bookmarks` join table. -/
def bookmarkArticleHandler (db : DB) (user : Option Nat) (articleId : Nat) : Resp × DB :=
  match user with
  | none => (notAuthenticated, db)
  | some userId =>
    match getArticleById db articleId with
    | none => ({ status := 404, message := "Article not found" }, db)
    | some article =>
      let bookmarkedBy := article.bookmarkedBy
      let userIndex := jsIndexOf bookmarkedBy userId
      if userIndex = -1 then
        let newBookmarkedBy := bookmarkedBy ++ [userId]
        let db2 := updateArticle db articleId (fun a => { a with bookmarkedBy := newBookmarkedBy })
        let db3 := addBookmark db2 userId articleId
        ({ status := 200, message := "Article bookmarked successfully" }, db3)
      else
        let newBookmarkedBy := jsSpliceOut bookmarkedBy userIndex
        let db2 := updateArticle db articleId (fun a => { a with bookmarkedBy := newBookmarkedBy })
        let db3 := removeBookmark db2 userId articleId
        ({ status := 200, message := "Bookmark removed successfully" }, db3)

/-- `POST /api/articles/:id/view`: on first view by the user (membership
check with `includes`) append to `viewedBy`, bump the view counter and
append a reading-history row; otherwise a no-op. -/
def viewArticleHandler (db : DB) (user : Option Nat) (articleId : Nat) : Resp × DB :=
  match user with
  | none => (notAuthenticated, db)
  | some userId =>
    match getArticleById db articleId with
    | none => ({ status := 404, message := "Article not found" }, db)
    | some article =>
      let viewedBy := article.viewedBy
      if !(viewedBy.contains userId) then
        let newViewedBy := viewedBy ++ [userId]
        let db2 := updateArticle db articleId (fun a => { a with viewedBy := newViewedBy })
        let db3 := incrementArticleViews db2 articleId
        let db4 := addToReadingHistory db3 userId articleId
        ({ status := 200, message := "View count updated successfully" }, db4)
      else
        ({ status := 200, message := "View count updated successfully" }, db)

/-- A comment creation body for `POST /api/articles/:id/comments`. -/
structure CommentRequest where
  content : String
  parentId : Option Nat
deriving Repr, DecidableEq

/-- `POST /api/articles/:id/comments`: insert the comment; for a reply,
re-fetch the parent thread (a missing parent throws, caught as 500, with
the new row already inserted). -/
def createCommentHandler (newId now : Nat) (db : DB) (user : Option Nat)
    (articleId : Nat) (req : CommentRequest) : Resp × DB :=
  match user with
  | none => (notAuthenticated, db)
  | some userId =>
    let c : Comment :=
      { id := newId, content := req.content, articleId := articleId, userId := userId,
        parentId := req.parentId, likes := 0, createdAt := now }
    let db2 := createComment db c
    match req.parentId with
    | some pid =>
      match getCommentWithReplies db2 pid with
      | none => ({ status := 500, message := "Internal server error" }, db2)
      | some _ => ({ status := 200, message := "" }, db2)
    | none => ({ status := 200, message := "" }, db2)

/-- `GET /api/articles/:id/comments`: the JSON payload, as a list of
top-level comments each paired with its replies. -/
def articleCommentsHandler (db : DB) (articleId : Nat) : List (Comment × List Comment) :=
  (getArticleComments db articleId).map (fun c => (c, getReplies db c.id))

/-- `POST /api/comments/:id/like`: auth check, then a bare counter
increment (no membership tracking). -/
def likeCommentHandler (db : DB) (user : Option Nat) (commentId : Nat) : Resp × DB :=
  match user with
  | none => (notAuthenticated, db)
  | some _ => ({ status := 200, message := "Comment liked successfully" }, likeComment db commentId)

/-- `POST /api/users/:id/follow`. -/
def followHandler (db : DB) (user : Option Nat) (followingId : Nat) : Resp × DB :=
  match user with
  | none => (notAuthenticated, db)
  | some followerId =>
    ({ status := 200, message := "Successfully followed user" }, followUser db followerId followingId)

/-- `POST /api/users/:id/unfollow`. -/
def unfollowHandler (db : DB) (user : Option Nat) (followingId : Nat) : Resp × DB :=
  match user with
  | none => (notAuthenticated, db)
  | some followerId =>
    ({ status := 200, message := "Successfully unfollowed user" }, unfollowUser db followerId followingId)

/-- `GET /api/me/bookmarks`: auth check, then a pure read. -/
def bookmarksListHandler (db : DB) (user : Option Nat) : Resp × DB :=
  match user with
  | none => (notAuthenticated, db)
  | some userId =>
    let _payload := getUserBookmarks db userId
    ({ status := 200, message := "" }, db)

/-- `GET /api/me/reading-history`: auth check, then a pure read. -/
def readingHistoryHandler (db : DB) (user : Option Nat) : Resp × DB :=
  match user with
  | none => (notAuthenticated, db)
  | some userId =>
    let _payload := getUserReadingHistory db userId
    ({ status := 200, message := "" }, db)

/-! ### Helper lemmas -/

theorem find?_map_update {α : Type} (l : List α) (p : α → Bool) (f : α → α)
    (hf : ∀ x, p (f x) = p x) :
    (l.map (fun x => if p x then f x else x)).find? p = (l.find? p).map f := by
  induction l with
  | nil => rfl
  | cons a l ih =>
    by_cases h : p a = true
    · simp [List.find?_cons, h, hf]
    · have h2 : p a = false := by simpa using h
      simp [List.find?_cons, h2, ih, hf]

theorem getArticleById_updateArticle (db : DB) (articleId : Nat) (f : Article → Article)
    (hf : ∀ x, (f x).id = x.id) :
    getArticleById (updateArticle db articleId f) articleId
      = (getArticleById db articleId).map f := by
  unfold getArticleById updateArticle
  exact find?_map_update _ _ _ (fun x => by simp [hf])

theorem getArticleById_incrementArticleViews (db : DB) (articleId : Nat) :
    getArticleById (incrementArticleViews db articleId) articleId
      = (getArticleById db articleId).map (fun a => { a with views := a.views + 1 }) := by
  unfold getArticleById incrementArticleViews
  exact find?_map_update _ _ _ (fun x => by simp)

theorem getCommentById_likeComment (db : DB) (commentId : Nat) :
    getCommentById (likeComment db commentId) commentId
      = (getCommentById db commentId).map (fun c => { c with likes := c.likes + 1 }) := by
  unfold getCommentById likeComment
  exact find?_map_update _ _ _ (fun x => by simp)

theorem jsIndexOf_of_not_mem {l : List Nat} {u : Nat} (h : u ∉ l) :
    jsIndexOf l u = -1 := by
  induction l with
  | nil => rfl
  | cons x xs ih =>
    have hx : x ≠ u := fun e => h (e ▸ List.mem_cons_self x xs)
    have hm : u ∉ xs := fun m => h (List.mem_cons_of_mem x m)
    simp [jsIndexOf, hx, ih hm]

theorem jsIndexOf_nonneg_of_mem {l : List Nat} {u : Nat} (h : u ∈ l) :
    0 ≤ jsIndexOf l u := by
  induction l with
  | nil => cases h
  | cons x xs ih =>
    by_cases hx : x = u
    · simp [jsIndexOf, hx]
    · have hm : u ∈ xs := by
        rcases List.mem_cons.mp h with h1 | h1
        · exact absurd h1.symm hx
        · exact h1
      have h0 := ih hm
      simp only [jsIndexOf, hx, if_false]
      split <;> omega

theorem jsSpliceOut_jsIndexOf {l : List Nat} {u : Nat} (h : u ∈ l) :
    jsSpliceOut l (jsIndexOf l u) = l.erase u := by
  induction l with
  | nil => cases h
  | cons x xs ih =>
    by_cases hx : x = u
    · subst hx
      simp [jsSpliceOut, jsIndexOf, List.eraseIdx]
    · have hm : u ∈ xs := by
        rcases List.mem_cons.mp h with h1 | h1
        · exact absurd h1.symm hx
        · exact h1
      have h0 := jsIndexOf_nonneg_of_mem hm
      have hne : ¬(jsIndexOf xs u = -1) := by omega
      have hx2 : ¬(x == u) = true := by simpa using hx
      rw [List.erase_cons_tail]
      · have htn : (jsIndexOf xs u + 1).toNat = (jsIndexOf xs u).toNat + 1 := by omega
        simp only [jsSpliceOut, jsIndexOf, hx, if_false, if_neg hne, htn, List.eraseIdx]
        rw [← ih hm]
        rfl
      · simpa using hx2

theorem jsIndexOf_append_self {l : List Nat} {u : Nat} (h : u ∉ l) :
    jsIndexOf (l ++ [u]) u = (l.length : Int) := by
  induction l with
  | nil => simp [jsIndexOf]
  | cons x xs ih =>
    have hx : x ≠ u := fun e => h (e ▸ List.mem_cons_self x xs)
    have hm : u ∉ xs := fun m => h (List.mem_cons_of_mem x m)
    have hlen : ¬((xs.length : Int) = -1) := by omega
    simp only [List.cons_append, jsIndexOf, hx, if_false, List.append_eq, ih hm,
      if_neg hlen, List.length_cons]
    push_cast
    ring

theorem jsSpliceOut_append_length (l : List Nat) (u : Nat) :
    jsSpliceOut (l ++ [u]) (l.length : Int) = l := by
  unfold jsSpliceOut
  rw [Int.toNat_natCast]
  induction l with
  | nil => rfl
  | cons x xs ih =>
    simp only [List.cons_append, List.length_cons, List.eraseIdx, List.append_eq]
    rw [ih]

theorem likeArticleHandler_add (db : DB) (articleId userId : Nat) (a : Article)
    (hget : getArticleById db articleId = some a) (hu : userId ∉ a.likedBy) :
    likeArticleHandler db (some userId) articleId =
      ({ status := 200, message := "Article liked successfully" },
       updateArticle db articleId
         (fun x => { x with likedBy := a.likedBy ++ [userId], likes := a.likes + 1 })) := by
  have h1 : jsIndexOf a.likedBy userId = -1 := jsIndexOf_of_not_mem hu
  simp [likeArticleHandler, hget, h1]

theorem likeArticleHandler_remove (db : DB) (articleId userId : Nat) (a : Article)
    (hget : getArticleById db articleId = some a) (hu : userId ∈ a.likedBy) :
    likeArticleHandler db (some userId) articleId =
      ({ status := 200, message := "Article unliked successfully" },
       updateArticle db articleId
         (fun x => { x with likedBy := a.likedBy.erase userId, likes := max 0 (a.likes - 1) })) := by
  have h0 := jsIndexOf_nonneg_of_mem hu
  have h1 : ¬(jsIndexOf a.likedBy userId = -1) := by omega
  have h2 := jsSpliceOut_jsIndexOf hu
  simp [likeArticleHandler, hget, h1, h2]

/-! ### Sample states used by witnesses and counterexamples -/

def sampleArticle : Article :=
  { id := 1, title := "t", content := "c", authorId := 1, status := "published",
    views := 0, likes := 1, likedBy := [7], bookmarkedBy := [], viewedBy := [], tags := [] }

def sampleDB : DB :=
  { waitlist := [], users := [], articles := [sampleArticle], comments := [],
    follows := [], bookmarks := [], readingHistory := [] }

/-! ### Claim C2 -/

/-- Claim C2: the predicate `likes = |likedBy|` on an article is preserved by
every sequential execution of the like-toggle handler — if it holds for the
stored article before the toggle, it holds after, in both the add branch
(append and increment) and the remove branch (remove and decrement floored
at zero). -/
theorem like_toggle_preserves_invariant (db : DB) (articleId userId : Nat) (a : Article)
    (hget : getArticleById db articleId = some a)
    (hinv : a.likes = (a.likedBy.length : Int)) :
    ∀ b : Article,
      getArticleById (likeArticleHandler db (some userId) articleId).2 articleId = some b →
      b.likes = (b.likedBy.length : Int) := by
  intro b hb
  by_cases hu : userId ∈ a.likedBy
  · rw [likeArticleHandler_remove db articleId userId a hget hu] at hb
    rw [getArticleById_updateArticle db articleId
        (fun x => { x with likedBy := a.likedBy.erase userId, likes := max 0 (a.likes - 1) })
        (fun x => rfl)] at hb
    rw [hget] at hb
    simp only [Option.map_some', Option.some.injEq] at hb
    subst hb
    show max 0 (a.likes - 1) = ((a.likedBy.erase userId).length : Int)
    have hlen : (a.likedBy.erase userId).length = a.likedBy.length - 1 :=
      List.length_erase_of_mem hu
    have hpos : 0 < a.likedBy.length := List.length_pos_of_mem hu
    rw [hlen, hinv]
    have hmax : max 0 ((a.likedBy.length : Int) - 1) = (a.likedBy.length : Int) - 1 :=
      max_eq_right (by omega)
    rw [hmax]
    omega
  · rw [likeArticleHandler_add db articleId userId a hget hu] at hb
    rw [getArticleById_updateArticle db articleId
        (fun x => { x with likedBy := a.likedBy ++ [userId], likes := a.likes + 1 })
        (fun x => rfl)] at hb
    rw [hget] at hb
    simp only [Option.map_some', Option.some.injEq] at hb
    subst hb
    show a.likes + 1 = (((a.likedBy ++ [userId]).length : Nat) : Int)
    rw [hinv, List.length_append]
    push_cast
    simp

/-- Witness for claim C2 at a concrete store: user 7 unlikes article 1. -/
theorem like_toggle_preserves_invariant_w :
    ({ sampleArticle with likedBy := [], likes := 0 } : Article).likes
      = (({ sampleArticle with likedBy := [], likes := 0 } : Article).likedBy.length : Int) :=
  like_toggle_preserves_invariant sampleDB 1 7 sampleArticle rfl rfl _ (by decide)

/-! ### Claim C1 -/

theorem erase_append_self {l : List Nat} {u : Nat} (h : u ∉ l) :
    (l ++ [u]).erase u = l := by
  rw [List.erase_append_right _ h, List.erase_cons_head, List.append_nil]

theorem likeArticle_after_add (db : DB) (articleId userId : Nat) (a : Article)
    (hget : getArticleById db articleId = some a) (hu : userId ∉ a.likedBy) :
    getArticleById (likeArticleHandler db (some userId) articleId).2 articleId
      = some { a with likedBy := a.likedBy ++ [userId], likes := a.likes + 1 } := by
  rw [likeArticleHandler_add db articleId userId a hget hu]
  rw [getArticleById_updateArticle db articleId
      (fun x => { x with likedBy := a.likedBy ++ [userId], likes := a.likes + 1 })
      (fun x => rfl), hget]
  rfl

theorem likeArticle_after_remove (db : DB) (articleId userId : Nat) (a : Article)
    (hget : getArticleById db articleId = some a) (hu : userId ∈ a.likedBy) :
    getArticleById (likeArticleHandler db (some userId) articleId).2 articleId
      = some { a with likedBy := a.likedBy.erase userId, likes := max 0 (a.likes - 1) } := by
  rw [likeArticleHandler_remove db articleId userId a hget hu]
  rw [getArticleById_updateArticle db articleId
      (fun x => { x with likedBy := a.likedBy.erase userId, likes := max 0 (a.likes - 1) })
      (fun x => rfl), hget]
  rfl

/-- An article whose stored state has `likes = 0` while `likedBy = [7]` — a
stored state the like-toggle does not return to after two invocations. -/
def inconsistentArticle : Article :=
  { id := 1, title := "t", content := "c", authorId := 1, status := "published",
    views := 0, likes := 0, likedBy := [7], bookmarkedBy := [], viewedBy := [], tags := [] }

def inconsistentDB : DB :=
  { waitlist := [], users := [], articles := [inconsistentArticle], comments := [],
    follows := [], bookmarks := [], readingHistory := [] }

/-- Counterexample to claim C1 as stated: starting from the stored state with
`likes = 0`, `likedBy = [7]`, user 7 toggles twice and the article ends with
`likes = 1`, not its original `likes` count 0 (the first toggle's decrement
is floored at zero, the second increments). -/
theorem like_toggle_twice_cex :
    (getArticleById inconsistentDB 1).map Article.likes = some 0 ∧
    (getArticleById
        (likeArticleHandler (likeArticleHandler inconsistentDB (some 7) 1).2
          (some 7) 1).2 1).map Article.likes = some 1 :=
  ⟨rfl, rfl⟩

/-- Claim C1 (amended): for every article and user, toggling twice returns the
article to its original `likes` count and `likedBy` membership, provided the
starting stored state is consistent for that user: the user id occurs at most
once in `likedBy`, `likes` is nonnegative, and `likes` is at least 1 whenever
the user is already in `likedBy` (all of which hold in any state satisfying
the documented invariant `likes = |likedBy|` with a duplicate-free
`likedBy`). -/
theorem like_toggle_twice_restores (db : DB) (articleId userId : Nat) (a : Article)
    (hget : getArticleById db articleId = some a)
    (hdup : a.likedBy.count userId ≤ 1)
    (hnn : 0 ≤ a.likes)
    (hpos : userId ∈ a.likedBy → 1 ≤ a.likes) :
    ∀ b : Article,
      getArticleById
        (likeArticleHandler (likeArticleHandler db (some userId) articleId).2
          (some userId) articleId).2 articleId = some b →
      b.likes = a.likes ∧ ∀ x : Nat, x ∈ b.likedBy ↔ x ∈ a.likedBy := by
  intro b hb
  by_cases hu : userId ∈ a.likedBy
  · -- first toggle removes, second adds back
    have h1 := likeArticle_after_remove db articleId userId a hget hu
    have hcount : (a.likedBy.erase userId).count userId = 0 := by
      have h2 := List.count_erase_self userId a.likedBy
      have h3 : 0 < a.likedBy.count userId := List.count_pos_iff.mpr hu
      omega
    have hu2 : userId ∉ ({ a with likedBy := a.likedBy.erase userId, likes := max 0 (a.likes - 1) } : Article).likedBy :=
      List.count_eq_zero.mp hcount
    have h2 := likeArticle_after_add _ articleId userId _ h1 hu2
    rw [h2] at hb
    simp only [Option.some.injEq] at hb
    subst hb
    have hp := hpos hu
    constructor
    · show max 0 (a.likes - 1) + 1 = a.likes
      rw [max_eq_right (by omega)]
      omega
    · intro x
      show x ∈ a.likedBy.erase userId ++ [userId] ↔ x ∈ a.likedBy
      rw [List.mem_append, List.mem_singleton]
      by_cases hx : x = userId
      · subst hx
        simp [hu]
      · simp [hx, List.mem_erase_of_ne hx]
  · -- first toggle adds, second removes exactly the appended id
    have h1 := likeArticle_after_add db articleId userId a hget hu
    have hu2 : userId ∈ ({ a with likedBy := a.likedBy ++ [userId], likes := a.likes + 1 } : Article).likedBy := by
      simp
    have h2 := likeArticle_after_remove _ articleId userId _ h1 hu2
    rw [h2] at hb
    simp only [Option.some.injEq] at hb
    subst hb
    constructor
    · show max 0 (a.likes + 1 - 1) = a.likes
      have he : a.likes + 1 - 1 = a.likes := by omega
      rw [he, max_eq_right hnn]
    · intro x
      show x ∈ (a.likedBy ++ [userId]).erase userId ↔ x ∈ a.likedBy
      rw [erase_append_self hu]

/-- Witness for claim C1 (amended) at a concrete store: user 7 toggles
article 1 twice and the stored article is restored. -/
theorem like_toggle_twice_restores_w :
    ({ sampleArticle with likedBy := [7], likes := 1 } : Article).likes = sampleArticle.likes
    ∧ ∀ x : Nat,
        x ∈ ({ sampleArticle with likedBy := [7], likes := 1 } : Article).likedBy
          ↔ x ∈ sampleArticle.likedBy :=
  like_toggle_twice_restores sampleDB 1 7 sampleArticle rfl (by decide) (by decide)
    (fun _ => by decide) _ (by decide)

/-! ### Claim C3 -/

theorem viewArticleHandler_seen (db : DB) (articleId userId : Nat) (a : Article)
    (hget : getArticleById db articleId = some a) (hu : userId ∈ a.viewedBy) :
    viewArticleHandler db (some userId) articleId
      = ({ status := 200, message := "View count updated successfully" }, db) := by
  simp [viewArticleHandler, hget, hu]

theorem viewArticleHandler_first (db : DB) (articleId userId : Nat) (a : Article)
    (hget : getArticleById db articleId = some a) (hu : userId ∉ a.viewedBy) :
    (viewArticleHandler db (some userId) articleId).2
      = addToReadingHistory
          (incrementArticleViews
            (updateArticle db articleId (fun x => { x with viewedBy := a.viewedBy ++ [userId] }))
            articleId)
          userId articleId := by
  simp [viewArticleHandler, hget, hu]

/-- Claim C3: the first view request by a user appends the user id to
`viewedBy`, increments `views` by exactly 1, and appends exactly one
reading-history row; every subsequent view request by the same user changes
nothing (any number of further requests leaves the store exactly as after
the first), so `views` rises by exactly 1 in total and the user id occurs
exactly once in `viewedBy`. -/
theorem view_first_then_noop (db : DB) (articleId userId : Nat) (a : Article)
    (hget : getArticleById db articleId = some a)
    (hnew : userId ∉ a.viewedBy) :
    (∃ b : Article,
        getArticleById (viewArticleHandler db (some userId) articleId).2 articleId = some b
        ∧ b.views = a.views + 1
        ∧ b.viewedBy = a.viewedBy ++ [userId]
        ∧ b.viewedBy.count userId = 1)
    ∧ ((viewArticleHandler db (some userId) articleId).2).readingHistory
        = db.readingHistory ++ [(userId, articleId)]
    ∧ ∀ n : Nat,
        (fun d => (viewArticleHandler d (some userId) articleId).2)^[n + 1] db
          = (viewArticleHandler db (some userId) articleId).2 := by
  have e1 : getArticleById
      (updateArticle db articleId (fun x => { x with viewedBy := a.viewedBy ++ [userId] }))
      articleId = some { a with viewedBy := a.viewedBy ++ [userId] } := by
    rw [getArticleById_updateArticle db articleId
        (fun x => { x with viewedBy := a.viewedBy ++ [userId] }) (fun x => rfl), hget]
    rfl
  have e2 : getArticleById (viewArticleHandler db (some userId) articleId).2 articleId
      = some { a with viewedBy := a.viewedBy ++ [userId], views := a.views + 1 } := by
    rw [viewArticleHandler_first db articleId userId a hget hnew]
    show getArticleById
      (incrementArticleViews
        (updateArticle db articleId (fun x => { x with viewedBy := a.viewedBy ++ [userId] }))
        articleId) articleId = _
    rw [getArticleById_incrementArticleViews, e1]
    rfl
  refine ⟨⟨{ a with viewedBy := a.viewedBy ++ [userId], views := a.views + 1 }, e2, rfl, rfl, ?_⟩, ?_, ?_⟩
  · show (a.viewedBy ++ [userId]).count userId = 1
    rw [List.count_append, List.count_eq_zero.mpr hnew]
    simp
  · rw [viewArticleHandler_first db articleId userId a hget hnew]
    rfl
  · have hmem : userId ∈ ({ a with viewedBy := a.viewedBy ++ [userId], views := a.views + 1 } : Article).viewedBy := by
      simp
    have hfix : (viewArticleHandler (viewArticleHandler db (some userId) articleId).2
        (some userId) articleId).2 = (viewArticleHandler db (some userId) articleId).2 := by
      rw [viewArticleHandler_seen _ articleId userId _ e2 hmem]
    intro n
    induction n with
    | zero => rfl
    | succ n ih =>
      rw [Function.iterate_succ_apply']
      rw [ih]
      exact hfix

/-- Witness for claim C3 at a concrete store (user 3 views article 1). -/
theorem view_first_then_noop_w :
    (∃ b : Article,
        getArticleById (viewArticleHandler sampleDB (some 3) 1).2 1 = some b
        ∧ b.views = sampleArticle.views + 1
        ∧ b.viewedBy = sampleArticle.viewedBy ++ [3]
        ∧ b.viewedBy.count 3 = 1)
    ∧ ((viewArticleHandler sampleDB (some 3) 1).2).readingHistory
        = sampleDB.readingHistory ++ [(3, 1)]
    ∧ ∀ n : Nat,
        (fun d => (viewArticleHandler d (some 3) 1).2)^[n + 1] sampleDB
          = (viewArticleHandler sampleDB (some 3) 1).2 :=
  view_first_then_noop sampleDB 1 3 sampleArticle rfl (by decide)

/-! ### Claim C4 -/

/-- Claim C4: every request without an authenticated session to a route
requiring auth (article create, like, bookmark, view, comment create,
comment like, follow, unfollow, bookmarks list, reading history) returns
HTTP 401 and leaves the stored state unchanged. -/
theorem unauthenticated_rejected_all :
    ∀ (db : DB) (newId now articleId commentId followingId : Nat)
      (areq : ArticleRequest) (creq : CommentRequest),
      ((createArticleHandler newId db none areq).1.status = 401
        ∧ (createArticleHandler newId db none areq).2 = db)
      ∧ ((likeArticleHandler db none articleId).1.status = 401
        ∧ (likeArticleHandler db none articleId).2 = db)
      ∧ ((bookmarkArticleHandler db none articleId).1.status = 401
        ∧ (bookmarkArticleHandler db none articleId).2 = db)
      ∧ ((viewArticleHandler db none articleId).1.status = 401
        ∧ (viewArticleHandler db none articleId).2 = db)
      ∧ ((createCommentHandler newId now db none articleId creq).1.status = 401
        ∧ (createCommentHandler newId now db none articleId creq).2 = db)
      ∧ ((likeCommentHandler db none commentId).1.status = 401
        ∧ (likeCommentHandler db none commentId).2 = db)
      ∧ ((followHandler db none followingId).1.status = 401
        ∧ (followHandler db none followingId).2 = db)
      ∧ ((unfollowHandler db none followingId).1.status = 401
        ∧ (unfollowHandler db none followingId).2 = db)
      ∧ ((bookmarksListHandler db none).1.status = 401
        ∧ (bookmarksListHandler db none).2 = db)
      ∧ ((readingHistoryHandler db none).1.status = 401
        ∧ (readingHistoryHandler db none).2 = db) :=
  fun _ _ _ _ _ _ _ _ =>
    ⟨⟨rfl, rfl⟩, ⟨rfl, rfl⟩, ⟨rfl, rfl⟩, ⟨rfl, rfl⟩, ⟨rfl, rfl⟩,
     ⟨rfl, rfl⟩, ⟨rfl, rfl⟩, ⟨rfl, rfl⟩, ⟨rfl, rfl⟩, ⟨rfl, rfl⟩⟩

/-! ### Claim C5 -/

/-- A registered user whose email is later re-submitted. -/
def existingUser : User :=
  { id := 1, email := "a@b.com", password := "hashed-secret", fullName := "Ann", phone := none }

def usersDB : DB :=
  { waitlist := [], users := [existingUser], articles := [], comments := [],
    follows := [], bookmarks := [], readingHistory := [] }

/-- A registration request re-using the stored email but failing schema
validation (password shorter than 8 characters). -/
def shortPasswordReq : RegisterRequest :=
  { email := "a@b.com", password := "x", fullName := "Bob", phone := none }

/-- Counterexample to claim C5 as stated: a registration request whose email
equals a stored user's email but whose password fails validation is answered
400 with the zod message, not "Email already registered" — the schema parse
runs before the duplicate-email lookup. -/
theorem register_duplicate_email_cex :
    existingUser ∈ usersDB.users
    ∧ existingUser.email = shortPasswordReq.email
    ∧ (registerHandler id 2 usersDB shortPasswordReq).1.status = 400
    ∧ (registerHandler id 2 usersDB shortPasswordReq).1.message ≠ "Email already registered"
    ∧ (registerHandler id 2 usersDB shortPasswordReq).2 = usersDB :=
  ⟨by decide, rfl, rfl, by decide, rfl⟩

/-- Claim C5 (amended): for every registration request that passes the
`insertUserSchema` validation and whose email equals the email of an
existing user, POST /api/auth/register returns HTTP 400 with message
"Email already registered" and does not create a user row: the stored set
of users is unchanged. -/
theorem register_duplicate_email_rejected (hash : String → String) (newId : Nat)
    (db : DB) (req : RegisterRequest)
    (hvalid : parseUser req = .ok req)
    (hdup : (getUserByEmail db req.email).isSome = true) :
    (registerHandler hash newId db req).1.status = 400
    ∧ (registerHandler hash newId db req).1.message = "Email already registered"
    ∧ (registerHandler hash newId db req).2 = db := by
  obtain ⟨u, hu⟩ := Option.isSome_iff_exists.mp hdup
  simp [registerHandler, hvalid, hu]

/-- A schema-valid registration request re-using the stored email. -/
def validDupReq : RegisterRequest :=
  { email := "a@b.com", password := "longenough", fullName := "Bob", phone := none }

/-- Witness for claim C5 (amended) at a concrete store. -/
theorem register_duplicate_email_rejected_w :
    (registerHandler id 2 usersDB validDupReq).1.status = 400
    ∧ (registerHandler id 2 usersDB validDupReq).1.message = "Email already registered"
    ∧ (registerHandler id 2 usersDB validDupReq).2 = usersDB :=
  register_duplicate_email_rejected id 2 usersDB validDupReq rfl rfl

/-! ### Claim C6 -/

theorem getArticleById_addBookmark (db : DB) (u aid aid2 : Nat) :
    getArticleById (addBookmark db u aid) aid2 = getArticleById db aid2 := rfl

theorem getArticleById_removeBookmark (db : DB) (u aid aid2 : Nat) :
    getArticleById (removeBookmark db u aid) aid2 = getArticleById db aid2 := rfl

theorem bookmarkHandler_add (db : DB) (articleId userId : Nat) (a : Article)
    (hget : getArticleById db articleId = some a) (hu : userId ∉ a.bookmarkedBy) :
    (bookmarkArticleHandler db (some userId) articleId).2
      = addBookmark
          (updateArticle db articleId (fun x => { x with bookmarkedBy := a.bookmarkedBy ++ [userId] }))
          userId articleId := by
  have h1 : jsIndexOf a.bookmarkedBy userId = -1 := jsIndexOf_of_not_mem hu
  simp [bookmarkArticleHandler, hget, h1]

theorem bookmarkHandler_remove (db : DB) (articleId userId : Nat) (a : Article)
    (hget : getArticleById db articleId = some a) (hu : userId ∈ a.bookmarkedBy) :
    (bookmarkArticleHandler db (some userId) articleId).2
      = removeBookmark
          (updateArticle db articleId (fun x => { x with bookmarkedBy := a.bookmarkedBy.erase userId }))
          userId articleId := by
  have h0 := jsIndexOf_nonneg_of_mem hu
  have h1 : ¬(jsIndexOf a.bookmarkedBy userId = -1) := by omega
  simp [bookmarkArticleHandler, hget, h1, jsSpliceOut_jsIndexOf hu]

/-- An article with a duplicated `bookmarkedBy` entry whose membership
nevertheless agrees with the join table. -/
def dupBookmarkArticle : Article :=
  { id := 1, title := "t", content := "c", authorId := 1, status := "published",
    views := 0, likes := 0, likedBy := [], bookmarkedBy := [5, 5], viewedBy := [], tags := [] }

def dupBookmarkDB : DB :=
  { waitlist := [], users := [], articles := [dupBookmarkArticle], comments := [],
    follows := [], bookmarks := [(5, 1)], readingHistory := [] }

/-- Counterexample to claim C6 as stated: with `bookmarkedBy = [5, 5]` and a
single join row (5, 1) the two representations agree (as membership), yet
after user 5's toggle the remove branch splices out only the first array
occurrence while deleting every join row, leaving 5 in `bookmarkedBy` with
no row — out of sync. -/
theorem bookmark_desync_cex :
    (∀ x : Nat, x ∈ dupBookmarkArticle.bookmarkedBy ↔ (x, 1) ∈ dupBookmarkDB.bookmarks)
    ∧ (∃ b : Article,
        getArticleById (bookmarkArticleHandler dupBookmarkDB (some 5) 1).2 1 = some b
        ∧ 5 ∈ b.bookmarkedBy)
    ∧ (5, 1) ∉ ((bookmarkArticleHandler dupBookmarkDB (some 5) 1).2).bookmarks := by
  refine ⟨?_, ⟨_, rfl, by decide⟩, by decide⟩
  intro x
  simp [dupBookmarkArticle, dupBookmarkDB]

/-- Claim C6 (amended): after a sequential bookmark toggle by user U on
article A, membership of U in `bookmarkedBy` agrees with existence of a
(U, A) row in the bookmarks join table, provided the two representations
agreed before and U occurs at most once in `bookmarkedBy` (the add branch
appends to the array and inserts a row; the remove branch removes the
occurrence and deletes the rows). -/
theorem bookmark_toggle_keeps_sync (db : DB) (articleId userId : Nat) (a : Article)
    (hget : getArticleById db articleId = some a)
    (hdup : a.bookmarkedBy.count userId ≤ 1)
    (hsync : ∀ x : Nat, x ∈ a.bookmarkedBy ↔ (x, articleId) ∈ db.bookmarks) :
    ∀ b : Article,
      getArticleById (bookmarkArticleHandler db (some userId) articleId).2 articleId = some b →
      ∀ x : Nat, x ∈ b.bookmarkedBy ↔
        (x, articleId) ∈ ((bookmarkArticleHandler db (some userId) articleId).2).bookmarks := by
  intro b hb x
  by_cases hu : userId ∈ a.bookmarkedBy
  · rw [bookmarkHandler_remove db articleId userId a hget hu] at hb ⊢
    rw [getArticleById_removeBookmark] at hb
    rw [getArticleById_updateArticle db articleId
        (fun y => { y with bookmarkedBy := a.bookmarkedBy.erase userId }) (fun y => rfl),
      hget] at hb
    simp only [Option.map_some', Option.some.injEq] at hb
    subst hb
    show x ∈ a.bookmarkedBy.erase userId ↔
      (x, articleId) ∈ db.bookmarks.filter (fun r => !(r.1 == userId && r.2 == articleId))
    by_cases hx : x = userId
    · subst hx
      have h2 := List.count_erase_self x a.bookmarkedBy
      have h3 : 0 < a.bookmarkedBy.count x := List.count_pos_iff.mpr hu
      have h4 : (a.bookmarkedBy.erase x).count x = 0 := by omega
      constructor
      · intro hmem
        exact absurd hmem (List.count_eq_zero.mp h4)
      · intro hmem
        have h5 := (List.mem_filter.mp hmem).2
        simp at h5
    · rw [List.mem_erase_of_ne hx, hsync x]
      constructor
      · intro hmem
        refine List.mem_filter.mpr ⟨hmem, ?_⟩
        simp [hx]
      · intro hmem
        exact (List.mem_filter.mp hmem).1
  · rw [bookmarkHandler_add db articleId userId a hget hu] at hb ⊢
    rw [getArticleById_addBookmark] at hb
    rw [getArticleById_updateArticle db articleId
        (fun y => { y with bookmarkedBy := a.bookmarkedBy ++ [userId] }) (fun y => rfl),
      hget] at hb
    simp only [Option.map_some', Option.some.injEq] at hb
    subst hb
    show x ∈ a.bookmarkedBy ++ [userId] ↔
      (x, articleId) ∈ db.bookmarks ++ [(userId, articleId)]
    rw [List.mem_append, List.mem_append, List.mem_singleton, List.mem_singleton, hsync x]
    constructor
    · rintro (h | h)
      · exact Or.inl h
      · subst h
        exact Or.inr rfl
    · rintro (h | h)
      · exact Or.inl h
      · exact Or.inr (congrArg Prod.fst h)

/-- A store where `bookmarkedBy = [5]` agrees with the single join row. -/
def syncArticle : Article :=
  { id := 1, title := "t", content := "c", authorId := 1, status := "published",
    views := 0, likes := 0, likedBy := [], bookmarkedBy := [5], viewedBy := [], tags := [] }

def syncDB : DB :=
  { waitlist := [], users := [], articles := [syncArticle], comments := [],
    follows := [], bookmarks := [(5, 1)], readingHistory := [] }

/-- Witness for claim C6 (amended) at a concrete store: user 5 removes the
bookmark and both representations drop the pair. -/
theorem bookmark_toggle_keeps_sync_w :
    5 ∈ ({ syncArticle with bookmarkedBy := [] } : Article).bookmarkedBy
      ↔ (5, 1) ∈ ((bookmarkArticleHandler syncDB (some 5) 1).2).bookmarks :=
  bookmark_toggle_keeps_sync syncDB 1 5 syncArticle rfl (by decide)
    (fun x => by simp [syncArticle, syncDB]) _ (by decide) 5

/-! ### Claim C7 -/

theorem mem_getArticleComments (db : DB) (articleId : Nat) (c : Comment) :
    c ∈ getArticleComments db articleId
      ↔ c ∈ db.comments ∧ c.articleId = articleId ∧ c.parentId = none := by
  unfold getArticleComments
  rw [(List.perm_insertionSort newestFirst _).mem_iff, List.mem_filter]
  simp [Option.isNone_iff_eq_none, and_assoc]

theorem mem_getReplies (db : DB) (commentId : Nat) (r : Comment) :
    r ∈ getReplies db commentId ↔ r ∈ db.comments ∧ r.parentId = some commentId := by
  unfold getReplies
  rw [(List.perm_insertionSort newestFirst _).mem_iff, List.mem_filter]
  simp

theorem sorted_getArticleComments (db : DB) (articleId : Nat) :
    List.Pairwise newestFirst (getArticleComments db articleId) :=
  List.sorted_insertionSort newestFirst _

theorem sorted_getReplies (db : DB) (commentId : Nat) :
    List.Pairwise newestFirst (getReplies db commentId) :=
  List.sorted_insertionSort newestFirst _

/-- Claim C7: GET /api/articles/:id/comments returns only comments with null
`parentId` at the top level (exactly the stored top-level comments of the
article), ordered newest-created-first, and each top-level comment carries a
`replies` list containing exactly the stored comments whose `parentId`
equals its id, also ordered newest-created-first. -/
theorem article_comments_threading (db : DB) (articleId : Nat) :
    (∀ p ∈ articleCommentsHandler db articleId,
        p.1.parentId = none
        ∧ p.1.articleId = articleId
        ∧ List.Pairwise newestFirst p.2
        ∧ (∀ r : Comment, r ∈ p.2 ↔ r ∈ db.comments ∧ r.parentId = some p.1.id))
    ∧ List.Pairwise (fun p q : Comment × List Comment => newestFirst p.1 q.1)
        (articleCommentsHandler db articleId)
    ∧ (∀ c : Comment,
        (∃ rs, (c, rs) ∈ articleCommentsHandler db articleId)
          ↔ c ∈ db.comments ∧ c.articleId = articleId ∧ c.parentId = none) := by
  refine ⟨?_, ?_, ?_⟩
  · intro p hp
    unfold articleCommentsHandler at hp
    obtain ⟨c, hc, hcp⟩ := List.mem_map.mp hp
    subst hcp
    obtain ⟨hmem, hart, hpar⟩ := (mem_getArticleComments db articleId c).mp hc
    exact ⟨hpar, hart, sorted_getReplies db c.id, fun r => mem_getReplies db c.id r⟩
  · unfold articleCommentsHandler
    rw [List.pairwise_map]
    exact sorted_getArticleComments db articleId
  · intro c
    constructor
    · rintro ⟨rs, hrs⟩
      unfold articleCommentsHandler at hrs
      obtain ⟨c2, hc2, heq⟩ := List.mem_map.mp hrs
      have hcc : c2 = c := congrArg Prod.fst heq
      subst hcc
      exact (mem_getArticleComments db articleId c2).mp hc2
    · intro h
      refine ⟨getReplies db c.id, ?_⟩
      unfold articleCommentsHandler
      exact List.mem_map.mpr ⟨c, (mem_getArticleComments db articleId c).mpr h, rfl⟩

/-- A top-level comment and one reply on article 1. -/
def topComment : Comment :=
  { id := 1, content := "c1", articleId := 1, userId := 1, parentId := none,
    likes := 0, createdAt := 10 }

def replyComment : Comment :=
  { id := 2, content := "c2", articleId := 1, userId := 2, parentId := some 1,
    likes := 0, createdAt := 20 }

def commentsDB : DB :=
  { waitlist := [], users := [], articles := [], comments := [topComment, replyComment],
    follows := [], bookmarks := [], readingHistory := [] }

/-- Witness for claim C7 at a concrete store. -/
theorem article_comments_threading_w :
    (∀ p ∈ articleCommentsHandler commentsDB 1,
        p.1.parentId = none
        ∧ p.1.articleId = 1
        ∧ List.Pairwise newestFirst p.2
        ∧ (∀ r : Comment, r ∈ p.2 ↔ r ∈ commentsDB.comments ∧ r.parentId = some p.1.id))
    ∧ List.Pairwise (fun p q : Comment × List Comment => newestFirst p.1 q.1)
        (articleCommentsHandler commentsDB 1)
    ∧ (∀ c : Comment,
        (∃ rs, (c, rs) ∈ articleCommentsHandler commentsDB 1)
          ↔ c ∈ commentsDB.comments ∧ c.articleId = 1 ∧ c.parentId = none) :=
  article_comments_threading commentsDB 1

/-! ### Claim C8 -/

/-- Claim C8: every successful waitlist submission (schema-valid, fresh
email) increases `getWaitlistCount` by exactly one; a submission whose email
already exists in the waitlist is rejected and leaves the store — hence the
count — unchanged.  Sequencing over pairwise-distinct emails follows by
applying the first conjunct at each intermediate store. -/
theorem waitlist_submission_count (db : DB) (req : WaitlistEntry) :
    (parseWaitlist req = .ok req →
      db.waitlist.any (fun w => w.email == req.email) = false →
      getWaitlistCount (waitlistHandler db req).2 = getWaitlistCount db + 1)
    ∧ (db.waitlist.any (fun w => w.email == req.email) = true →
      (waitlistHandler db req).2 = db) := by
  constructor
  · intro hok hfresh
    simp [waitlistHandler, hok, addToWaitlist, hfresh, getWaitlistCount]
  · intro hdup
    have hdata : (∃ msg, parseWaitlist req = .error msg) ∨ parseWaitlist req = .ok req := by
      unfold parseWaitlist
      split_ifs <;> simp
    rcases hdata with ⟨msg, h⟩ | h
    · simp [waitlistHandler, h]
    · simp [waitlistHandler, h, addToWaitlist, hdup]

def waitlistReq : WaitlistEntry :=
  { fullName := "Ann", email := "a@b.com" }

def emptyDB : DB :=
  { waitlist := [], users := [], articles := [], comments := [],
    follows := [], bookmarks := [], readingHistory := [] }

def waitlistDupDB : DB :=
  { waitlist := [waitlistReq], users := [], articles := [], comments := [],
    follows := [], bookmarks := [], readingHistory := [] }

/-- Witness for claim C8 at concrete stores: a fresh insert and a duplicate. -/
theorem waitlist_submission_count_w :
    getWaitlistCount (waitlistHandler emptyDB waitlistReq).2 = getWaitlistCount emptyDB + 1
    ∧ (waitlistHandler waitlistDupDB waitlistReq).2 = waitlistDupDB :=
  ⟨(waitlist_submission_count emptyDB waitlistReq).1 rfl rfl,
   (waitlist_submission_count waitlistDupDB waitlistReq).2 rfl⟩

/-! ### Claim C9 -/

/-- Claim C9: every authenticated POST /api/comments/:id/like increments the
target comment's `likes` counter by exactly 1, with no per-user membership
recorded: after `n` repeated calls by one user the stored comment is exactly
the original with `likes` increased by `n` (every other field unchanged). -/
theorem comment_like_increments (db : DB) (userId commentId n : Nat) (c : Comment)
    (hget : getCommentById db commentId = some c) :
    getCommentById ((fun d => (likeCommentHandler d (some userId) commentId).2)^[n] db) commentId
      = some { c with likes := c.likes + (n : Int) } := by
  induction n generalizing db c with
  | zero => simpa using hget
  | succ n ih =>
    rw [Function.iterate_succ_apply]
    have h1 : getCommentById (likeCommentHandler db (some userId) commentId).2 commentId
        = some { c with likes := c.likes + 1 } := by
      show getCommentById (likeComment db commentId) commentId = _
      rw [getCommentById_likeComment, hget]
      rfl
    have h2 := ih _ _ h1
    rw [h2]
    show some ({ c with likes := c.likes + 1 + (n : Int) } : Comment)
      = some { c with likes := c.likes + ((n + 1 : Nat) : Int) }
    have he : c.likes + 1 + (n : Int) = c.likes + ((n + 1 : Nat) : Int) := by
      push_cast
      ring
    rw [he]

/-- Witness for claim C9: two likes on a concrete comment. -/
theorem comment_like_increments_w :
    getCommentById ((fun d => (likeCommentHandler d (some 4) 1).2)^[2] commentsDB) 1
      = some { topComment with likes := topComment.likes + ((2 : Nat) : Int) } :=
  comment_like_increments commentsDB 4 1 2 topComment rfl

/-! ### Claim C10 -/

/-- Claim C10: a single `unfollowUser(f, g)` deletes every follow row of the
pair — even duplicates — so `isFollowing(f, g)` is false afterwards; a second
call leaves the store unchanged (idempotent); follow rows of every other
pair are untouched (their multiplicities are preserved). -/
theorem unfollow_removes_pair (db : DB) (followerId followingId : Nat) :
    isFollowing (unfollowUser db followerId followingId) followerId followingId = false
    ∧ (unfollowUser db followerId followingId).follows.count (followerId, followingId) = 0
    ∧ unfollowUser (unfollowUser db followerId followingId) followerId followingId
        = unfollowUser db followerId followingId
    ∧ ∀ r : Nat × Nat, ¬(r.1 = followerId ∧ r.2 = followingId) →
        (unfollowUser db followerId followingId).follows.count r = db.follows.count r := by
  refine ⟨?_, ?_, ?_, ?_⟩
  · unfold isFollowing unfollowUser
    rw [Bool.eq_false_iff]
    intro hany
    obtain ⟨r, hr, hp⟩ := List.any_eq_true.mp hany
    have h2 := (List.mem_filter.mp hr).2
    rw [hp] at h2
    simp at h2
  · rw [List.count_eq_zero]
    intro hmem
    have h2 := (List.mem_filter.mp hmem).2
    simp at h2
  · unfold unfollowUser
    congr 1
    rw [List.filter_filter]
    simp
  · intro r hr
    show (db.follows.filter fun x => !(x.1 == followerId && x.2 == followingId)).count r
      = db.follows.count r
    refine List.count_filter ?_
    simp only [Bool.not_eq_true', Bool.and_eq_false_iff, beq_eq_false_iff_ne, ne_eq]
    tauto

/-- A follows table holding a duplicated (1, 2) pair and an unrelated row. -/
def followsDB : DB :=
  { waitlist := [], users := [], articles := [], comments := [],
    follows := [(1, 2), (1, 2), (3, 4)], bookmarks := [], readingHistory := [] }

/-- Witness for claim C10 at a concrete store with duplicate follow rows. -/
theorem unfollow_removes_pair_w :
    isFollowing (unfollowUser followsDB 1 2) 1 2 = false
    ∧ (unfollowUser followsDB 1 2).follows.count (1, 2) = 0
    ∧ unfollowUser (unfollowUser followsDB 1 2) 1 2 = unfollowUser followsDB 1 2
    ∧ (unfollowUser followsDB 1 2).follows.count (3, 4) = followsDB.follows.count (3, 4) :=
  ⟨(unfollow_removes_pair followsDB 1 2).1,
   (unfollow_removes_pair followsDB 1 2).2.1,
   (unfollow_removes_pair followsDB 1 2).2.2.1,
   (unfollow_removes_pair followsDB 1 2).2.2.2 (3, 4) (by decide)⟩

end Social
